import Mathlib

/-!
Verification of the rogue-access-point DNS responder: the resolution engine
(`resolve` in `dns_server.py` / `lib/datatypes.py`) and the lifecycle
controller (`DNSServer` in `lib/datatypes.py`).

Domain names are modelled as lists of code points (`List Nat`); Python string
operations (`lower`, `rstrip "."`, `split "."`, `startswith`, `endswith`) are
translated to list operations on code points.  Record types (`"A"`, `"ANY"`,
...) are Lean strings.  Upstream forwarding and parsing is an oracle
`send : String → Query → Option Reply`, `none` standing for any failure
(timeout, connection error, malformed response).  The per-instance query
counter is incremented exactly once per `resolve` call in the source and is
observability-only; it does not influence matching and is not modelled.
-/

namespace DnsServer

/-- Code point of `'.'`. -/
def dot : Nat := 46

/-- Code point of `'*'`. -/
def star : Nat := 42

/-- ASCII lowercasing of one code point, as Python `str.lower` acts on
ASCII letters. -/
def lowerChar (c : Nat) : Nat :=
  if 65 ≤ c ∧ c ≤ 90 then c + 32 else c

/-- Python `name.lower()` on a name given as code points. -/
def strLower (n : List Nat) : List Nat :=
  n.map lowerChar

/-- Python `name.rstrip(".")`: remove every trailing dot. -/
def rstripDots (n : List Nat) : List Nat :=
  (n.reverse.dropWhile (fun c => c == dot)).reverse

/-- `normalize` from `resolve` (dns_server.py lines 33-36, datatypes.py
lines 41-44): `name.lower().rstrip(".") + "."`. -/
def normalize (n : List Nat) : List Nat :=
  rstripDots (strLower n) ++ [dot]

/-- Python `s.split(".")`: splitting an empty string yields `[""]`,
adjacent separators yield empty fields. -/
def splitOnDot : List Nat → List (List Nat)
  | [] => [[]]
  | c :: cs =>
    if c = dot then [] :: splitOnDot cs
    else
      match splitOnDot cs with
      | [] => [[c]]
      | p :: ps => (c :: p) :: ps

/-- Number of labels of a name once trailing dots are stripped:
`len(name.rstrip(".").split("."))` in the source. -/
def labelCount (n : List Nat) : Nat :=
  (splitOnDot (rstripDots n)).length

/-- `wildcard_match` from `resolve` (dns_server.py lines 38-51, datatypes.py
lines 46-59). -/
def wildcardMatch (qname rname : List Nat) : Bool :=
  if [star, dot].isPrefixOf rname then
    let suffix := rname.drop 2
    if suffix.isSuffixOf qname then
      decide ((splitOnDot (rstripDots qname)).length =
              (splitOnDot (rstripDots suffix)).length + 1)
    else false
  else false

/-- One resource record as produced by the zone loader: owning name, type
mnemonic (`QTYPE[rr.rtype]` in the source), and an opaque rendering of the
type-specific payload. -/
structure RR where
  rname : List Nat
  rtype : String
  rdata : String
deriving DecidableEq

/-- One query: raw name as received (`str(request.q.qname)`) and requested
type mnemonic (`QTYPE[request.q.qtype]`). -/
structure Query where
  qname : List Nat
  qtype : String
deriving DecidableEq

/-- A reply: the answer records added by `reply.add_answer` and the
authoritative-answer header flag.  `request.reply()` starts with no answers
and `aa` clear. -/
structure Reply where
  answers : List RR
  aa : Bool
deriving DecidableEq

/-- The type-match test of both tiers: the record is considered when
`qtype in (QTYPE[rr.rtype], "ANY")` (dns_server.py lines 68-70,
datatypes.py lines 72-74). -/
def typeMatch (qtype rtype : String) : Bool :=
  qtype == rtype || qtype == "ANY"

/-- The normalized query name: `normalize(str(request.q.qname).rstrip("."))`. -/
def queryName (q : Query) : List Nat :=
  normalize (rstripDots q.qname)

/-- The `exact_matches` list built by the override loop: type matches whose
normalized owning name equals the normalized query name, in insertion
order. -/
def overrideExactMatches (q : Query) (ov : List RR) : List RR :=
  ov.filter (fun rr =>
    typeMatch q.qtype rr.rtype && decide (queryName q = normalize rr.rname))

/-- The `wildcard_matches` list built by the override loop: type matches
that are not exact matches (the `elif`) but pass `wildcard_match`, in
insertion order. -/
def overrideWildcardMatches (q : Query) (ov : List RR) : List RR :=
  ov.filter (fun rr =>
    typeMatch q.qtype rr.rtype &&
    !(decide (queryName q = normalize rr.rname)) &&
    wildcardMatch (queryName q) (normalize rr.rname))

/-- The zone-tier per-record test: type match and exact normalized-name
equality (dns_server.py lines 86-93, datatypes.py lines 87-93). -/
def zoneMatch (q : Query) (rr : RR) : Bool :=
  typeMatch q.qtype rr.rtype && decide (queryName q = normalize rr.rname)

/-- `resolve` (dns_server.py lines 29-107, datatypes.py lines 37-103):
override tier (exact matches beat wildcard matches, all winners answered,
`aa` clear), then zone tier (first match only, `aa` set), then upstream
forwarding of the original query to primary then backup, `none` when both
fail.  Each tier is guarded by the source's truthiness test on the record
list. -/
def resolve (ov zn : List RR) (primary backup : String)
    (send : String → Query → Option Reply) (q : Query) : Option Reply :=
  let exact := overrideExactMatches q ov
  let wild := overrideWildcardMatches q ov
  let winners := if exact.isEmpty then wild else exact
  if !ov.isEmpty && !winners.isEmpty then
    some { answers := winners, aa := false }
  else
    match (if zn.isEmpty then none else zn.find? (zoneMatch q)) with
    | some rr => some { answers := [rr], aa := true }
    | none =>
      match send primary q with
      | some resp => some resp
      | none =>
        match send backup q with
        | some resp => some resp
        | none => none

/-! ### Lifecycle controller (`DNSServer` in lib/datatypes.py)

Exceptions raised by the controller (`lib/exceptions.py`): `StateChangeError`
and `ConfigurationError`.  A lifecycle call is modelled as a function from
the server object to the new server object paired with `Option LibError`
(`none` = normal return).  Failures of the collaborators that the source
wraps in `try`/`except` — loading the record files inside the `DNSResolver`
constructor, constructing and binding the `dnslib` listener, starting its
thread, and the listener's `stop()` — are modelled by an oracle `SysEnv`.
A raising helper leaves exactly the fields it had already assigned, as the
Python mutation order does. -/

/-- The errors of `lib/exceptions.py`. -/
inductive LibError where
  | stateChangeError
  | configurationError
deriving DecidableEq

/-- The seven string settings of the `[DNS]` configuration section. -/
structure Config where
  zone_file : String
  override_file : String
  primary_upstream : String
  backup_upstream : String
  laddr : String
  lport : String
  ttl : String
deriving DecidableEq

/-- The bound `dnslib` listener, carrying the record sets its `DNSResolver`
loaded at construction time. -/
structure Listener where
  zoneRecords : List RR
  overrideRecords : List RR
deriving DecidableEq

/-- The `DNSServer` object of lib/datatypes.py: configuration, the `state`
string, and the `dns_server` listener slot (`None` until first assigned). -/
structure Srv where
  config : Config
  state : String
  dns_server : Option Listener
deriving DecidableEq

/-- Outcomes of the collaborator calls the source wraps in `try`/`except`:
`loadRecords` is the `DNSResolver` construction (reading both record files;
`none` = raise), `bindListener` the `dnslib` server construction (`none` =
bind raise), `threadOk` the `start_thread` call, `stopOk` the listener's
`stop()`. -/
structure SysEnv where
  loadRecords : Config → Option (List RR × List RR)
  bindListener : Config → List RR × List RR → Option Listener
  threadOk : Bool
  stopOk : Bool

/-- `DNSServer.__init__` (datatypes.py lines 109-116): state starts as
`"not running"` with no listener. -/
def initServer (cfg : Config) : Srv :=
  { config := cfg, state := "not running", dns_server := none }

/-- `DNSServer._start_dns_server` (datatypes.py lines 118-125).  The `Bool`
is true when the sequence raised; the returned server keeps exactly the
mutations made before the raise (the listener slot is assigned before
`start_thread` runs and `state` is set last). -/
def startSeq (env : SysEnv) (s : Srv) : Srv × Bool :=
  match env.loadRecords s.config with
  | none => (s, true)
  | some recs =>
    match env.bindListener s.config recs with
    | none => (s, true)
    | some l =>
      let s1 := { s with dns_server := some l }
      if env.threadOk then ({ s1 with state := "running" }, false)
      else (s1, true)

/-- `DNSServer._stop_dns_server` (datatypes.py lines 127-131):
`self.dns_server.stop()` — an `AttributeError` when the slot is still
`None` — then `state = "not running"`.  The listener slot is not cleared. -/
def stopSeq (env : SysEnv) (s : Srv) : Srv × Bool :=
  match s.dns_server with
  | none => (s, true)
  | some _ =>
    if env.stopOk then ({ s with state := "not running" }, false)
    else (s, true)

/-- `DNSServer._restart_dns_server` (datatypes.py lines 133-138): stop then
start; a raise in the stop half skips the start half. -/
def restartSeq (env : SysEnv) (s : Srv) : Srv × Bool :=
  let r := stopSeq env s
  if r.2 then r else startSeq env r.1

/-- `DNSServer.start` (datatypes.py lines 140-149): reject when state is
`"running"`, otherwise run the startup sequence, turning any raise into a
`StateChangeError`. -/
def start (env : SysEnv) (s : Srv) : Srv × Option LibError :=
  if s.state = "running" then (s, some LibError.stateChangeError)
  else
    let r := startSeq env s
    (r.1, if r.2 then some LibError.stateChangeError else none)

/-- `DNSServer.stop` (datatypes.py lines 151-160): reject when state is
`"not running"`, otherwise run the shutdown sequence. -/
def stop (env : SysEnv) (s : Srv) : Srv × Option LibError :=
  if s.state = "not running" then (s, some LibError.stateChangeError)
  else
    let r := stopSeq env s
    (r.1, if r.2 then some LibError.stateChangeError else none)

/-- `DNSServer.restart` (datatypes.py lines 162-171): reject when state is
`"not running"`, otherwise run the restart sequence. -/
def restart (env : SysEnv) (s : Srv) : Srv × Option LibError :=
  if s.state = "not running" then (s, some LibError.stateChangeError)
  else
    let r := restartSeq env s
    (r.1, if r.2 then some LibError.stateChangeError else none)

/-- The tuple of recognized setting names in `DNSServer.configure`
(datatypes.py lines 176-184). -/
def recognizedSettings : List String :=
  ["zone_file", "override_file", "primary_upstream", "backup_upstream",
   "laddr", "lport", "ttl"]

/-- The dictionary write `self.config["DNS"][setting] = value` for a
recognized setting. -/
def Config.set (c : Config) (k v : String) : Config :=
  if k = "zone_file" then { c with zone_file := v }
  else if k = "override_file" then { c with override_file := v }
  else if k = "primary_upstream" then { c with primary_upstream := v }
  else if k = "backup_upstream" then { c with backup_upstream := v }
  else if k = "laddr" then { c with laddr := v }
  else if k = "lport" then { c with lport := v }
  else if k = "ttl" then { c with ttl := v }
  else c

/-- Dictionary read of one recognized setting, `none` for an unknown key. -/
def Config.get (c : Config) (k : String) : Option String :=
  if k = "zone_file" then some c.zone_file
  else if k = "override_file" then some c.override_file
  else if k = "primary_upstream" then some c.primary_upstream
  else if k = "backup_upstream" then some c.backup_upstream
  else if k = "laddr" then some c.laddr
  else if k = "lport" then some c.lport
  else if k = "ttl" then some c.ttl
  else none

/-- `DNSServer.configure` (datatypes.py lines 173-188): write the setting
when recognized, raise `ConfigurationError` otherwise.  No reload happens:
the `state` and `dns_server` fields are untouched. -/
def configure (s : Srv) (setting value : String) : Srv × Option LibError :=
  if setting ∈ recognizedSettings then
    ({ s with config := s.config.set setting value }, none)
  else (s, some LibError.configurationError)

/-- The well-formedness invariant of the controller: the `state` string is
one of the two documented values, and a running server holds a listener. -/
def Inv (s : Srv) : Prop :=
  (s.state = "not running" ∨ s.state = "running") ∧
  (s.state = "running" → s.dns_server ≠ none)

/-! ### Normalization lemmas -/

theorem lowerChar_idem (c : Nat) : lowerChar (lowerChar c) = lowerChar c := by
  simp only [lowerChar]
  split_ifs <;> omega

theorem lowerChar_eq_dot (c : Nat) : lowerChar c = dot ↔ c = dot := by
  simp only [lowerChar, dot]
  split_ifs <;> omega

theorem strLower_idem (n : List Nat) : strLower (strLower n) = strLower n := by
  unfold strLower
  rw [List.map_map]
  exact List.map_congr_left (fun c _ => lowerChar_idem c)

theorem dropWhile_dot_map_lower (l : List Nat) :
    (l.map lowerChar).dropWhile (fun c => c == dot) =
    (l.dropWhile (fun c => c == dot)).map lowerChar := by
  induction l with
  | nil => rfl
  | cons c cs ih =>
    by_cases h : c = dot
    · subst h
      have hl : lowerChar dot = dot := by decide
      simp [List.dropWhile, hl, ih]
    · have hl : lowerChar c ≠ dot := fun hc => h ((lowerChar_eq_dot c).mp hc)
      have h1 : (c == dot) = false := by simp [h]
      have h2 : (lowerChar c == dot) = false := by simp [hl]
      simp [List.dropWhile, h1, h2]

theorem rstripDots_strLower (n : List Nat) :
    rstripDots (strLower n) = strLower (rstripDots n) := by
  unfold rstripDots strLower
  rw [← List.map_reverse, dropWhile_dot_map_lower, List.map_reverse]

theorem dropWhile_idem (p : Nat → Bool) (l : List Nat) :
    (l.dropWhile p).dropWhile p = l.dropWhile p := by
  induction l with
  | nil => rfl
  | cons c cs ih =>
    by_cases h : p c
    · simp [List.dropWhile, h, ih]
    · simp [List.dropWhile, h]

theorem rstripDots_idem (n : List Nat) :
    rstripDots (rstripDots n) = rstripDots n := by
  unfold rstripDots
  rw [List.reverse_reverse, dropWhile_idem]

theorem rstripDots_append_dot (n : List Nat) :
    rstripDots (n ++ [dot]) = rstripDots n := by
  unfold rstripDots
  rw [List.reverse_append]
  simp [List.dropWhile]

theorem strLower_append_dot (n : List Nat) :
    strLower (n ++ [dot]) = strLower n ++ [dot] := by
  unfold strLower
  rw [List.map_append]
  rfl

theorem normalize_idem (n : List Nat) :
    normalize (normalize n) = normalize n := by
  unfold normalize
  rw [strLower_append_dot, rstripDots_append_dot, ← rstripDots_strLower,
    strLower_idem, rstripDots_idem]

theorem normalize_rstripDots (n : List Nat) :
    normalize (rstripDots n) = normalize n := by
  unfold normalize
  rw [← rstripDots_strLower, rstripDots_idem]

/-! ### Resolution-tier lemmas -/

/-- Rendering of a name literal as code points, for concrete instances. -/
def strToName (s : String) : List Nat :=
  s.toList.map Char.toNat

theorem resolve_of_exact_ne_nil (ov zn : List RR) (primary backup : String)
    (send : String → Query → Option Reply) (q : Query)
    (h : overrideExactMatches q ov ≠ []) :
    resolve ov zn primary backup send q =
      some { answers := overrideExactMatches q ov, aa := false } := by
  have ho : ov.isEmpty = false := by
    cases ov with
    | nil => simp [overrideExactMatches] at h
    | cons a l => rfl
  have he : (overrideExactMatches q ov).isEmpty = false := by
    cases hx : overrideExactMatches q ov with
    | nil => exact absurd hx h
    | cons a l => rfl
  simp [resolve, ho, he]

theorem resolve_of_wild (ov zn : List RR) (primary backup : String)
    (send : String → Query → Option Reply) (q : Query)
    (he : overrideExactMatches q ov = [])
    (h : overrideWildcardMatches q ov ≠ []) :
    resolve ov zn primary backup send q =
      some { answers := overrideWildcardMatches q ov, aa := false } := by
  have ho : ov.isEmpty = false := by
    cases ov with
    | nil => simp [overrideWildcardMatches] at h
    | cons a l => rfl
  have hw : (overrideWildcardMatches q ov).isEmpty = false := by
    cases hx : overrideWildcardMatches q ov with
    | nil => exact absurd hx h
    | cons a l => rfl
  simp [resolve, ho, he, hw]

theorem resolve_of_no_override (ov zn : List RR) (primary backup : String)
    (send : String → Query → Option Reply) (q : Query)
    (he : overrideExactMatches q ov = [])
    (hw : overrideWildcardMatches q ov = []) :
    resolve ov zn primary backup send q =
      match (if zn.isEmpty then none else zn.find? (zoneMatch q)) with
      | some rr => some { answers := [rr], aa := true }
      | none =>
        match send primary q with
        | some resp => some resp
        | none =>
          match send backup q with
          | some resp => some resp
          | none => none := by
  simp [resolve, he, hw]

theorem resolve_zone_first (ov zn : List RR) (primary backup : String)
    (send : String → Query → Option Reply) (q : Query) (rr : RR)
    (he : overrideExactMatches q ov = [])
    (hw : overrideWildcardMatches q ov = [])
    (hz : zn.find? (zoneMatch q) = some rr) :
    resolve ov zn primary backup send q = some { answers := [rr], aa := true } := by
  have hzn : zn.isEmpty = false := by
    cases zn with
    | nil => simp at hz
    | cons a l => rfl
  rw [resolve_of_no_override ov zn primary backup send q he hw]
  simp [hzn, hz]

theorem resolve_upstream (ov zn : List RR) (primary backup : String)
    (send : String → Query → Option Reply) (q : Query)
    (he : overrideExactMatches q ov = [])
    (hw : overrideWildcardMatches q ov = [])
    (hz : zn.find? (zoneMatch q) = none) :
    resolve ov zn primary backup send q =
      match send primary q with
      | some resp => some resp
      | none => send backup q := by
  rw [resolve_of_no_override ov zn primary backup send q he hw]
  have : (if zn.isEmpty then none else zn.find? (zoneMatch q)) =
      (none : Option RR) := by
    split <;> simp [hz]
  rw [this]
  cases send primary q <;> [cases send backup q <;> rfl; rfl]

theorem mem_overrideExactMatches (q : Query) (ov : List RR) (rr : RR) :
    rr ∈ overrideExactMatches q ov ↔
      rr ∈ ov ∧ typeMatch q.qtype rr.rtype = true ∧
      queryName q = normalize rr.rname := by
  simp [overrideExactMatches, List.mem_filter, and_assoc]

theorem mem_overrideWildcardMatches (q : Query) (ov : List RR) (rr : RR) :
    rr ∈ overrideWildcardMatches q ov ↔
      rr ∈ ov ∧ typeMatch q.qtype rr.rtype = true ∧
      queryName q ≠ normalize rr.rname ∧
      wildcardMatch (queryName q) (normalize rr.rname) = true := by
  simp [overrideWildcardMatches, List.mem_filter, and_assoc]

theorem find?_eq_some_split {α : Type} (p : α → Bool) (l : List α) (a : α)
    (h : l.find? p = some a) :
    p a = true ∧ ∃ l1 l2, l = l1 ++ a :: l2 ∧ ∀ x ∈ l1, p x = false := by
  induction l with
  | nil => simp at h
  | cons b bs ih =>
    by_cases hb : p b
    · rw [List.find?_cons_of_pos _ hb] at h
      obtain rfl : b = a := by injection h
      exact ⟨hb, [], bs, rfl, by simp⟩
    · rw [List.find?_cons_of_neg _ (by simpa using hb)] at h
      obtain ⟨hpa, l1, l2, hsplit, hall⟩ := ih h
      refine ⟨hpa, b :: l1, l2, by rw [hsplit]; rfl, ?_⟩
      intro x hx
      rcases List.mem_cons.mp hx with rfl | hx1
      · simpa using hb
      · exact hall x hx1

/-! ### Fixtures for concrete instances -/

/-- `x.com A 1.1.1.1`. -/
def rrA : RR := { rname := strToName "x.com", rtype := "A", rdata := "1.1.1.1" }

/-- A second A record for the same name: `x.com A 2.2.2.2`. -/
def rrB : RR := { rname := strToName "x.com", rtype := "A", rdata := "2.2.2.2" }

/-- A wildcard override: `*.x.com A 0.0.0.0`. -/
def rrW : RR := { rname := strToName "*.x.com", rtype := "A", rdata := "0.0.0.0" }

/-- An `A` query for `x.com`. -/
def qA : Query := { qname := strToName "x.com", qtype := "A" }

/-- An `A` query for `tracker.x.com`. -/
def qW : Query := { qname := strToName "tracker.x.com", qtype := "A" }

/-- An upstream oracle on which every attempt fails. -/
def sendNone : String → Query → Option Reply := fun _ _ => none

/-- A configuration instance. -/
def cfg0 : Config :=
  { zone_file := "/etc/dns/zone", override_file := "/etc/dns/override",
    primary_upstream := "8.8.8.8", backup_upstream := "9.9.9.9",
    laddr := "0.0.0.0", lport := "53", ttl := "300" }

/-- A bound listener instance. -/
def listener0 : Listener := { zoneRecords := [rrA], overrideRecords := [rrW] }

/-- An environment in which every collaborator call succeeds. -/
def env0 : SysEnv :=
  { loadRecords := fun _ => some ([rrA], [rrW]),
    bindListener := fun _ _ => some listener0,
    threadOk := true, stopOk := true }

/-- A server that is up and holds a listener. -/
def srvRunning : Srv :=
  { config := cfg0, state := "running", dns_server := some listener0 }

/-- A freshly constructed server. -/
def srvStopped : Srv := initServer cfg0

/-! ### Claims -/

/-- C1: for every query and every non-empty set of type-matching override
records, if any record's normalized owning name exactly equals the
normalized query name, `resolve` returns a reply containing every such
exact-matching record and no wildcard-matching record, and neither the zone
tier nor the upstream tier is consulted: the result does not depend on the
zone set or the upstreams. -/
theorem override_exact_short_circuits (ov zn : List RR)
    (primary backup : String) (send : String → Query → Option Reply)
    (q : Query) (h : overrideExactMatches q ov ≠ []) :
    resolve ov zn primary backup send q =
      some { answers := overrideExactMatches q ov, aa := false } ∧
    (∀ rr, rr ∈ overrideExactMatches q ov ↔
      rr ∈ ov ∧ typeMatch q.qtype rr.rtype = true ∧
      queryName q = normalize rr.rname) ∧
    (∀ rr, rr ∈ overrideExactMatches q ov →
      rr ∉ overrideWildcardMatches q ov) := by
  refine ⟨resolve_of_exact_ne_nil ov zn primary backup send q h,
    fun rr => mem_overrideExactMatches q ov rr, fun rr hrr hw => ?_⟩
  have h1 := (mem_overrideExactMatches q ov rr).mp hrr
  have h2 := (mem_overrideWildcardMatches q ov rr).mp hw
  exact h2.2.2.1 h1.2.2

/-- Witness for C1: two A records for `x.com` are both returned for an
exact-match query, with the zone set and upstreams irrelevant. -/
theorem override_exact_short_circuits_witness :
    resolve [rrA, rrB] [rrW] "8.8.8.8" "9.9.9.9" sendNone qA =
      some { answers := [rrA, rrB], aa := false } := by
  have h := (override_exact_short_circuits [rrA, rrB] [rrW] "8.8.8.8"
    "9.9.9.9" sendNone qA (by decide)).1
  rw [h]
  decide

/-- C2: a wildcard override of the form `*.<suffix>` matches exactly the
queries whose normalized name ends with the suffix and that have exactly one
more label than the suffix — one single extra label, not zero, not more. -/
theorem wildcard_single_label (qname suffix : List Nat) :
    wildcardMatch qname (star :: dot :: suffix) = true ↔
      suffix.isSuffixOf qname = true ∧
      labelCount qname = labelCount suffix + 1 := by
  unfold wildcardMatch labelCount
  have hp : [star, dot].isPrefixOf (star :: dot :: suffix) = true := by
    simp [List.isPrefixOf]
  rw [if_pos hp]
  have hd : (star :: dot :: suffix).drop 2 = suffix := rfl
  rw [hd]
  by_cases hs : suffix.isSuffixOf qname
  · simp [hs]
  · simp [hs]

/-- C3: when the override tier produces no match and some zone record
type-matches with exact normalized-name equality, `resolve` answers with
exactly the first matching zone record in load order — even when several
match — with the authoritative-answer flag set. -/
theorem zone_first_match_authoritative (ov zn : List RR)
    (primary backup : String) (send : String → Query → Option Reply)
    (q : Query) (rr : RR)
    (hov : overrideExactMatches q ov = [] ∧ overrideWildcardMatches q ov = [])
    (hz : zn.find? (zoneMatch q) = some rr) :
    resolve ov zn primary backup send q =
      some { answers := [rr], aa := true } ∧
    zoneMatch q rr = true ∧
    ∃ l1 l2, zn = l1 ++ rr :: l2 ∧ ∀ x ∈ l1, zoneMatch q x = false := by
  obtain ⟨hpa, l1, l2, hsplit, hall⟩ := find?_eq_some_split (zoneMatch q) zn rr hz
  exact ⟨resolve_zone_first ov zn primary backup send q rr hov.1 hov.2 hz,
    hpa, l1, l2, hsplit, hall⟩

/-- Witness for C3: with two matching zone records, only the first is
returned, authoritatively. -/
theorem zone_first_match_authoritative_witness :
    resolve [] [rrA, rrB] "8.8.8.8" "9.9.9.9" sendNone qA =
      some { answers := [rrA], aa := true } :=
  (zone_first_match_authoritative [] [rrA, rrB] "8.8.8.8" "9.9.9.9"
    sendNone qA rrA ⟨by decide, by decide⟩ (by decide)).1

/-- Counterexample for C4: the claim fails for the ZoneSet.  Both zone
records `rrA` and `rrB` match the query, yet the answer set holds only the
first one — the matching record `rrB` is not returned. -/
theorem zone_multi_match_not_all_returned :
    zoneMatch qA rrA = true ∧ zoneMatch qA rrB = true ∧ rrA ≠ rrB ∧
    resolve [] [rrA, rrB] "8.8.8.8" "9.9.9.9" sendNone qA =
      some { answers := [rrA], aa := true } ∧
    rrB ∉ [rrA] := by
  decide

/-- C4 (amended): all matching records of the winning override partition are
returned together in insertion order (the answer lists are sublists of the
OverrideSet); for the ZoneSet only the first matching record in load order
is returned. -/
theorem same_source_matches_behaviour (ov zn : List RR)
    (primary backup : String) (send : String → Query → Option Reply)
    (q : Query) :
    (overrideExactMatches q ov ≠ [] →
      resolve ov zn primary backup send q =
        some { answers := overrideExactMatches q ov, aa := false }) ∧
    (overrideExactMatches q ov = [] → overrideWildcardMatches q ov ≠ [] →
      resolve ov zn primary backup send q =
        some { answers := overrideWildcardMatches q ov, aa := false }) ∧
    (overrideExactMatches q ov).Sublist ov ∧
    (overrideWildcardMatches q ov).Sublist ov ∧
    (∀ rr : RR, overrideExactMatches q ov = [] →
      overrideWildcardMatches q ov = [] →
      zn.find? (zoneMatch q) = some rr →
      resolve ov zn primary backup send q =
        some { answers := [rr], aa := true }) := by
  refine ⟨fun h => resolve_of_exact_ne_nil ov zn primary backup send q h,
    fun he h => resolve_of_wild ov zn primary backup send q he h,
    List.filter_sublist ov, List.filter_sublist ov,
    fun rr he hw hz => resolve_zone_first ov zn primary backup send q rr he hw hz⟩

/-- Witness for C4 (amended): the wildcard partition answers a wildcard-only
query. -/
theorem same_source_matches_behaviour_witness :
    resolve [rrW] [] "8.8.8.8" "9.9.9.9" sendNone qW =
      some { answers := [rrW], aa := false } := by
  have h := (same_source_matches_behaviour [rrW] [] "8.8.8.8" "9.9.9.9"
    sendNone qW).2.1 (by decide) (by decide)
  rw [h]
  decide

/-- C5: with no override-tier and no zone-tier match, `resolve` forwards the
original query to the primary upstream; if that attempt fails it tries the
backup identically, exactly once, returning the backup's parsed response on
success; when both fail the resolution produces no reply — `resolve` is a
total function, so no exception escapes. -/
theorem upstream_fallback (ov zn : List RR) (primary backup : String)
    (send : String → Query → Option Reply) (q : Query)
    (hov : overrideExactMatches q ov = [] ∧ overrideWildcardMatches q ov = [])
    (hz : zn.find? (zoneMatch q) = none) :
    resolve ov zn primary backup send q =
      (match send primary q with
       | some resp => some resp
       | none => send backup q) ∧
    (send primary q = none → send backup q = none →
      resolve ov zn primary backup send q = none) := by
  have h := resolve_upstream ov zn primary backup send q hov.1 hov.2 hz
  refine ⟨h, fun hp hb => ?_⟩
  rw [h, hp, hb]

/-- Witness for C5: both upstreams failing yields no reply. -/
theorem upstream_fallback_witness :
    resolve [] [] "8.8.8.8" "9.9.9.9" sendNone qA = none :=
  (upstream_fallback [] [] "8.8.8.8" "9.9.9.9" sendNone qA
    ⟨by decide, by decide⟩ (by decide)).2 rfl rfl

/-- C6: `start` on a running server, `stop` on a non-running server, and
`restart` on a non-running server each raise `StateChangeError` and return
the server object unchanged — never a half-started state. -/
theorem lifecycle_precondition_rejections (env : SysEnv) (s : Srv) :
    (s.state = "running" →
      start env s = (s, some LibError.stateChangeError)) ∧
    (s.state = "not running" →
      stop env s = (s, some LibError.stateChangeError)) ∧
    (s.state = "not running" →
      restart env s = (s, some LibError.stateChangeError)) := by
  refine ⟨fun h => ?_, fun h => ?_, fun h => ?_⟩
  · simp [start, h]
  · simp [stop, h]
  · simp [restart, h]

/-- Witness for C6: double-start, double-stop and restart-while-stopped are
rejected on concrete servers. -/
theorem lifecycle_precondition_rejections_witness :
    start env0 srvRunning = (srvRunning, some LibError.stateChangeError) ∧
    stop env0 srvStopped = (srvStopped, some LibError.stateChangeError) ∧
    restart env0 srvStopped = (srvStopped, some LibError.stateChangeError) :=
  ⟨(lifecycle_precondition_rejections env0 srvRunning).1 rfl,
   (lifecycle_precondition_rejections env0 srvStopped).2.1 rfl,
   (lifecycle_precondition_rejections env0 srvStopped).2.2 rfl⟩

theorem mem_recognizedSettings (k : String) (hk : k ∈ recognizedSettings) :
    k = "zone_file" ∨ k = "override_file" ∨ k = "primary_upstream" ∨
    k = "backup_upstream" ∨ k = "laddr" ∨ k = "lport" ∨ k = "ttl" := by
  simpa [recognizedSettings] using hk

theorem config_get_set (c : Config) (v k : String)
    (hk : k ∈ recognizedSettings) (k2 : String) :
    Config.get (Config.set c k v) k2 =
      if k2 = k then some v else Config.get c k2 := by
  rcases mem_recognizedSettings k hk with rfl | rfl | rfl | rfl | rfl | rfl | rfl
  · have hs : Config.set c "zone_file" v = { c with zone_file := v } := by
      simp [Config.set]
    rw [hs]
    by_cases h : k2 = "zone_file" <;> simp [Config.get, h]
  · have hs : Config.set c "override_file" v = { c with override_file := v } := by
      simp [Config.set]
    rw [hs]
    by_cases h : k2 = "override_file" <;> simp [Config.get, h]
  · have hs : Config.set c "primary_upstream" v =
        { c with primary_upstream := v } := by
      simp [Config.set]
    rw [hs]
    by_cases h : k2 = "primary_upstream" <;> simp [Config.get, h]
  · have hs : Config.set c "backup_upstream" v =
        { c with backup_upstream := v } := by
      simp [Config.set]
    rw [hs]
    by_cases h : k2 = "backup_upstream" <;> simp [Config.get, h]
  · have hs : Config.set c "laddr" v = { c with laddr := v } := by
      simp [Config.set]
    rw [hs]
    by_cases h : k2 = "laddr" <;> simp [Config.get, h]
  · have hs : Config.set c "lport" v = { c with lport := v } := by
      simp [Config.set]
    rw [hs]
    by_cases h : k2 = "lport" <;> simp [Config.get, h]
  · have hs : Config.set c "ttl" v = { c with ttl := v } := by
      simp [Config.set]
    rw [hs]
    by_cases h : k2 = "ttl" <;> simp [Config.get, h]

/-- C7: `configure` raises `ConfigurationError` exactly when the setting is
not one of the seven recognized names, leaving the server unchanged on
rejection; for a recognized setting it updates that configuration key alone,
leaving every other key, the state string and the listener slot (hence the
loaded record sets) untouched — no reload. -/
theorem configure_exact_update (s : Srv) (k v : String) :
    ((configure s k v).2 = some LibError.configurationError ↔
      k ∉ recognizedSettings) ∧
    (k ∉ recognizedSettings → (configure s k v).1 = s) ∧
    (k ∈ recognizedSettings →
      (configure s k v).2 = none ∧
      (configure s k v).1.state = s.state ∧
      (configure s k v).1.dns_server = s.dns_server ∧
      ∀ k2, Config.get (configure s k v).1.config k2 =
        if k2 = k then some v else Config.get s.config k2) := by
  by_cases hk : k ∈ recognizedSettings
  · refine ⟨by simp [configure, hk], fun h => absurd hk h, fun _ => ?_⟩
    refine ⟨by simp [configure, hk], by simp [configure, hk],
      by simp [configure, hk], fun k2 => ?_⟩
    have hg := config_get_set s.config v k hk k2
    simpa [configure, hk] using hg
  · exact ⟨by simp [configure, hk], fun _ => by simp [configure, hk],
      fun h => absurd h hk⟩

/-- Witness for C7: an unrecognized setting is rejected with the server
unchanged, and a recognized one updates exactly its own key. -/
theorem configure_exact_update_witness :
    (configure srvStopped "bogus" "x").2 = some LibError.configurationError ∧
    (configure srvStopped "bogus" "x").1 = srvStopped ∧
    Config.get (configure srvStopped "ttl" "60").1.config "ttl" = some "60" ∧
    Config.get (configure srvStopped "ttl" "60").1.config "lport" =
      Config.get srvStopped.config "lport" := by
  have h1 := configure_exact_update srvStopped "bogus" "x"
  have h2 := (configure_exact_update srvStopped "ttl" "60").2.2 (by decide)
  refine ⟨h1.1.mpr (by decide), h1.2.1 (by decide), ?_, ?_⟩
  · rw [h2.2.2.2 "ttl", if_pos rfl]
  · rw [h2.2.2.2 "lport", if_neg (by decide)]

/-- C8: type matching is a one-directional wildcard on the query side only:
a query of type `"ANY"` type-matches every stored record type, while a
stored record of type `"ANY"` does not type-match a query of any other
specific type. -/
theorem any_wildcard_query_side_only (qtype rtype : String) :
    typeMatch "ANY" rtype = true ∧
    (qtype ≠ "ANY" → typeMatch qtype "ANY" = false) := by
  constructor
  · simp [typeMatch]
  · intro h
    simp [typeMatch, h]

/-- Witness for C8: `"ANY"` queries match an `A` record; `A` queries do not
match a stored `"ANY"` record. -/
theorem any_wildcard_query_side_only_witness :
    typeMatch "ANY" "A" = true ∧ typeMatch "A" "ANY" = false :=
  ⟨(any_wildcard_query_side_only "A" "A").1,
   (any_wildcard_query_side_only "A" "A").2 (by decide)⟩

/-- C9: name normalization is idempotent, and two names that agree once
lowercased and stripped of trailing dots — in particular names differing
only in letter case, or only in trailing dots — normalize to the same
canonical name and give the same normalized query name, hence match the
same records. -/
theorem normalize_idempotent_insensitive (a b n : List Nat) (t : String)
    (h : rstripDots (strLower a) = rstripDots (strLower b)) :
    normalize (normalize n) = normalize n ∧
    normalize a = normalize b ∧
    queryName { qname := a, qtype := t } =
      queryName { qname := b, qtype := t } := by
  have hab : normalize a = normalize b := by
    unfold normalize
    rw [h]
  refine ⟨normalize_idem n, hab, ?_⟩
  unfold queryName
  simp only [normalize_rstripDots]
  exact hab

/-- Witness for C9: `Example.COM` and `example.com.` normalize identically,
and normalization is idempotent on `Example.COM`. -/
theorem normalize_idempotent_insensitive_witness :
    normalize (normalize (strToName "Example.COM")) =
      normalize (strToName "Example.COM") ∧
    normalize (strToName "Example.COM") =
      normalize (strToName "example.com.") := by
  have h := normalize_idempotent_insensitive (strToName "Example.COM")
    (strToName "example.com.") (strToName "Example.COM") "A" (by decide)
  exact ⟨h.1, h.2.1⟩

theorem Inv_startSeq (env : SysEnv) (s : Srv) (h : Inv s) :
    Inv (startSeq env s).1 := by
  cases hl : env.loadRecords s.config with
  | none => simpa [startSeq, hl] using h
  | some recs =>
    cases hb : env.bindListener s.config recs with
    | none => simpa [startSeq, hl, hb] using h
    | some l =>
      cases ht : env.threadOk with
      | true =>
        simp only [startSeq, hl, hb, ht, if_true]
        exact ⟨Or.inr rfl, fun _ => by simp⟩
      | false =>
        simp only [startSeq, hl, hb, ht, Bool.false_eq_true, if_false]
        exact ⟨h.1, fun _ => by simp⟩

theorem Inv_stopSeq (env : SysEnv) (s : Srv) (h : Inv s) :
    Inv (stopSeq env s).1 := by
  cases hd : s.dns_server with
  | none => simpa [stopSeq, hd] using h
  | some l =>
    cases ht : env.stopOk with
    | true =>
      simp only [stopSeq, hd, ht, if_true]
      exact ⟨Or.inl rfl, fun hc => by simp at hc⟩
    | false =>
      simp only [stopSeq, hd, ht, Bool.false_eq_true, if_false]
      exact h

/-- C10: the controller's implicit invariant — after construction and after
every `start`, `stop`, `restart` or `configure` call, raising or not, the
`state` field holds one of the two strings `"not running"` / `"running"`,
and a running controller holds a listener in `dns_server`, so `stop` never
finds the slot empty. -/
theorem lifecycle_invariant (cfg : Config) (env : SysEnv) (s : Srv)
    (k v : String) (h : Inv s) :
    Inv (initServer cfg) ∧
    Inv (start env s).1 ∧ Inv (stop env s).1 ∧ Inv (restart env s).1 ∧
    Inv (configure s k v).1 := by
  refine ⟨⟨Or.inl rfl, fun hc => by simp [initServer] at hc⟩, ?_, ?_, ?_, ?_⟩
  · unfold start
    by_cases hr : s.state = "running"
    · simpa [hr] using h
    · simpa [hr] using Inv_startSeq env s h
  · unfold stop
    by_cases hr : s.state = "not running"
    · simpa [hr] using h
    · simpa [hr] using Inv_stopSeq env s h
  · unfold restart
    by_cases hr : s.state = "not running"
    · simpa [hr] using h
    · have h1 := Inv_stopSeq env s h
      unfold restartSeq
      by_cases h2 : (stopSeq env s).2
      · simpa [hr, h2] using h1
      · simpa [hr, h2] using Inv_startSeq env (stopSeq env s).1 h1
  · unfold configure
    by_cases hk : k ∈ recognizedSettings
    · simpa [hk] using h
    · simpa [hk] using h

/-- Witness for C10: the invariant holds for a concrete running server and
is preserved by a successful `stop`. -/
theorem lifecycle_invariant_witness :
    Inv (initServer cfg0) ∧ Inv (stop env0 srvRunning).1 := by
  have h := lifecycle_invariant cfg0 env0 srvRunning "ttl" "60"
    ⟨Or.inr rfl, fun _ => by simp [srvRunning]⟩
  exact ⟨h.1, h.2.2.1⟩

end DnsServer
